import Mathlib

set_option maxRecDepth 10000

/-!
Verification of the unifysync acquisition-and-merge pipeline
(`src/unifysync.py`) against its natural-language specification.

The embedding is a shallow one:

* Paths are plain strings.  `pathNorm` models the normalisation performed by
  Python's `pathlib.Path` constructor (collapse duplicate separators, drop
  `.` components and trailing separators); `pyResolve` models
  `Path.resolve()` as "prepend the current working directory when the path is
  relative, then normalise" — symbolic-link and `..` resolution is outside
  the model and every concrete input used below avoids them.
* The environment (`Env`) packages the outcomes of every effectful call the
  pipeline makes: `shutil.which`, `Path.is_dir`, the `urllib` probe, the
  downloader capability and the child-process runner.  The pipeline is then a
  pure function from an environment to the ordered list of observable events
  (`Event`) together with the process outcome (`Outcome`).
* Machine-level facts used: a bare `sys.exit()` raises `SystemExit(None)`,
  which terminates the interpreter with exit status 0; an exception that
  propagates out of the script terminates it with a non-zero status.
-/

namespace UnifySync

/-- Split a character list on a separator character, keeping empty pieces
(the semantics of Python's `str.split(sep)`). -/
def splitChar (c : Char) : List Char → List (List Char)
  | [] => [[]]
  | x :: xs =>
    if x = c then [] :: splitChar c xs
    else
      match splitChar c xs with
      | [] => [[x]]
      | y :: ys => (x :: y) :: ys

/-- Interleave a separator character between pieces (Python `sep.join`). -/
def joinChar (c : Char) : List (List Char) → List Char
  | [] => []
  | [x] => x
  | x :: y :: ys => x ++ c :: joinChar c (y :: ys)

/-- The path components `pathlib` keeps: empty pieces (from duplicate or
trailing separators) and `.` pieces are dropped. -/
def pathComps (cs : List Char) : List (List Char) :=
  (splitChar '/' cs).filter (fun comp => !comp.isEmpty && comp != ['.'])

/-- Normalisation performed by the `pathlib.Path` constructor: collapse
duplicate `/`, drop trailing `/` and `.` components; an anchored path keeps
its leading `/`; a path with no component left renders as `.`. -/
def pathNormChars (cs : List Char) : List Char :=
  let body := joinChar '/' (pathComps cs)
  if cs.headD ' ' = '/' then '/' :: body
  else if body = [] then ['.'] else body

/-- `Path(s)` as a string-level normalisation. -/
def pathNorm (s : String) : String := String.mk (pathNormChars s.data)

/-- `Path(a, b)`: if the second argument is anchored it wins, otherwise the
two are joined with a separator; the result is normalised as `pathlib` does. -/
def pathJoin (a b : String) : String :=
  if b.data.headD ' ' = '/' then pathNorm b else pathNorm (a ++ "/" ++ b)

/-- `Path(p).resolve()` relative to a current working directory: an anchored
path is kept, a relative one is anchored at `cwd`; both are normalised.
(`..` and symbolic links are outside the model.) -/
def pyResolve (cwd p : String) : String :=
  if p.data.headD ' ' = '/' then pathNorm p else pathNorm (cwd ++ "/" ++ p)

/-- `Path(p).name`: the final path component (empty for the root). -/
def lastComp (cs : List Char) : List Char :=
  (splitChar '/' cs).getLastD []

/-- `Path(p).suffix` on the character level: the final component's substring
from its last dot, unless that dot is the first or the last character of the
component (Python returns the empty suffix in those cases). -/
def pySuffixChars (cs : List Char) : List Char :=
  let n := lastComp cs
  let parts := splitChar '.' n
  match parts with
  | [] => []
  | [_] => []
  | p :: ps =>
    let lastPart := (p :: ps).getLastD []
    if lastPart.isEmpty then []
    else if ps.length = 1 && p.isEmpty then []
    else '.' :: lastPart

/-- `Path(p).suffix` as a string. -/
def pySuffix (p : String) : String := String.mk (pySuffixChars p.data)

/-- `Path(p).parent` on normalised input. -/
def parentDir (p : String) : String :=
  let comps := (pathComps p.data).dropLast
  let body := joinChar '/' comps
  if p.data.headD ' ' = '/' then String.mk ('/' :: body)
  else if comps.isEmpty then "." else String.mk body

/-- Python `str.strip()`: drop whitespace from both ends. -/
def trimChars (cs : List Char) : List Char :=
  ((cs.dropWhile Char.isWhitespace).reverse.dropWhile Char.isWhitespace).reverse

/-- Python `str.strip()` as a string operation. -/
def pyStrip (s : String) : String := String.mk (trimChars s.data)

/-- Fuelled worker for `str.replace`: leftmost non-overlapping occurrences of
`pat` are replaced by `rep`.  The fuel is the input length; each step consumes
at least one character for the non-empty patterns used by the program. -/
def replaceAllAux (pat rep : List Char) : Nat → List Char → List Char
  | _, [] => []
  | 0, s => s
  | fuel + 1, x :: xs =>
    if pat.isPrefixOf (x :: xs) then
      rep ++ replaceAllAux pat rep fuel (List.drop pat.length (x :: xs))
    else x :: replaceAllAux pat rep fuel xs

/-- Python `s.replace(pat, rep)`: every occurrence is replaced (the program
only ever calls this with a non-empty pattern). -/
def replaceStr (pat rep s : String) : String :=
  String.mk (replaceAllAux pat.data rep.data s.data.length s.data)

/-- Does the string end with the given suffix? -/
def endsWithStr (suf s : String) : Bool :=
  suf.data.reverse.isPrefixOf s.data.reverse

/-- Hexadecimal digit test, as `urllib.parse.unquote` accepts them. -/
def isHexDigit (c : Char) : Bool :=
  c.isDigit || (97 ≤ c.toNat && c.toNat ≤ 102) || (65 ≤ c.toNat && c.toNat ≤ 70)

/-- Numeric value of a hexadecimal digit. -/
def hexVal (c : Char) : Nat :=
  if c.isDigit then c.toNat - 48
  else if 97 ≤ c.toNat && c.toNat ≤ 102 then c.toNat - 87
  else if 65 ≤ c.toNat && c.toNat ≤ 70 then c.toNat - 55
  else 0

/-- The character encoded by a percent-escape. -/
def pctChar (a b : Char) : Char := Char.ofNat (16 * hexVal a + hexVal b)

/-- `urllib.parse.unquote` on the character level: every `%XX` with two
hexadecimal digits is decoded to the character of that byte value; a `%` not
followed by two hexadecimal digits is kept verbatim.  (Python additionally
UTF-8-decodes runs of escaped bytes `≥ 0x80`; the model maps each escaped
byte to the character of its code point, which agrees with Python on the
ASCII escapes used below.) -/
def unquoteAux : Nat → List Char → List Char
  | _, [] => []
  | 0, s => s
  | fuel + 1, c :: rest =>
    if c = '%' then
      match rest with
      | a :: b :: rest2 =>
        if isHexDigit a && isHexDigit b then pctChar a b :: unquoteAux fuel rest2
        else '%' :: unquoteAux fuel rest
      | _ => '%' :: unquoteAux fuel rest
    else c :: unquoteAux fuel rest

/-- `urllib.parse.unquote` on the character level (see `unquoteAux`; the fuel
is the input length, which each step strictly exceeds the consumption of). -/
def unquoteChars (cs : List Char) : List Char := unquoteAux cs.length cs

/-- `urllib.parse.unquote` as a string operation. -/
def unquote (s : String) : String := String.mk (unquoteChars s.data)

/-- Does a valid percent-escape (`%` followed by two hexadecimal digits)
start at this position? -/
def escapeHere (c : Char) (rest : List Char) : Bool :=
  c = '%' && (match rest with
              | a :: b :: _ => isHexDigit a && isHexDigit b
              | _ => false)

/-- Does the string contain at least one valid percent-escape (`%` followed
by two hexadecimal digits)? -/
def hasEscapeChars : List Char → Bool
  | [] => false
  | c :: rest => escapeHere c rest || hasEscapeChars rest

/-- String form of `hasEscapeChars`. -/
def hasEscape (s : String) : Bool := hasEscapeChars s.data

/-- Modelled fragment of the standard library MIME table consulted by
`mimetypes.guess_extension` (src line 26): only the entry the specification
exercises is listed; every other MIME type is treated as having no known
mapping, which is exactly how the program handles an unmapped type. -/
def mimeTable : List (String × String) := [("video/mp4", ".mp4")]

/-- `mimetypes.guess_extension`: look the MIME type up, `none` when there is
no known mapping. -/
def guessExtension (ct : String) : Option String :=
  (mimeTable.find? (fun e => e.1 == ct)).map (fun e => e.2)

/-- `get_extension_from_url` (src lines 20-34).  The probe argument models
`urllib.request.urlopen` followed by the `Content-Type` header read:
`none` means the probe raised (the `except` at line 32 catches it and the
function returns `None`); `some none` means the header was absent, so
`guess_extension(None)` raises `TypeError`, which the same `except` catches;
`some (some ct)` is a successful probe, mapped through the MIME table. -/
def get_extension_from_url (probe : String → Option (Option String)) (url : String) :
    Option String :=
  match probe url with
  | none => none
  | some none => none
  | some (some ct) => guessExtension ct

/-- Everything effectful the pipeline consults, as one record:
`whichFfmpeg` is `shutil.which('ffmpeg')`; `cwd` the working directory;
`isDir` the filesystem's answer to `Path.is_dir`; `probe` the network probe
of `get_extension_from_url`; `downloadOk` tells whether the opaque
downloader capability returns normally for a `(url, destination)` pair
(`false` means it raised, and no handler in `download_and_merge` catches
that); `runOk` tells whether `subprocess.run(arg, shell=False, check=True)`
returns normally for the given argument (a single command string on the
left, an argument vector on the right). -/
structure Env where
  whichFfmpeg : Option String
  cwd : String
  isDir : String → Bool
  probe : String → Option (Option String)
  downloadOk : String → String → Bool
  runOk : Sum String (List String) → Bool

/-- The observable events of one pipeline run, in program order. -/
inductive Event
  | whichCheck (found : Bool)
  | probe (url : String)
  | download (url dest : String)
  | existsCheck (paths : List String)
  | mkdirParent (dir : String)
  | runProc (arg : Sum String (List String))
  | rmtree (dir : String)
deriving DecidableEq

/-- How the process ends: `success` is a normal script completion (exit
status 0); `exitZero` is a bare `sys.exit()` — `SystemExit(None)`, exit
status 0; `uncaught` is an exception propagating out of the script, exit
status 1. -/
inductive Outcome
  | success
  | exitZero
  | uncaught
deriving DecidableEq

/-- Operating-system exit status of each outcome. -/
def Outcome.exitCode : Outcome → Nat
  | Outcome.success => 0
  | Outcome.exitZero => 0
  | Outcome.uncaught => 1

/-- Is the event a merge-tool child-process execution? -/
def Event.isRunProc : Event → Bool
  | Event.runProc _ => true
  | _ => false

/-- Is the event a child-process execution whose argument is a discrete
argument vector (rather than one command string)? -/
def Event.isVectorRun : Event → Bool
  | Event.runProc (Sum.inr _) => true
  | _ => false

/-- Is the event a staged-file existence check? -/
def Event.isExistsCheck : Event → Bool
  | Event.existsCheck _ => true
  | _ => false

/-- Is the event a workspace teardown? -/
def Event.isRmtree : Event → Bool
  | Event.rmtree _ => true
  | _ => false

/-- Is the event a network probe? -/
def Event.isProbe : Event → Bool
  | Event.probe _ => true
  | _ => false

/-- Is the event a download dispatch? -/
def Event.isDownload : Event → Bool
  | Event.download _ _ => true
  | _ => false

/-- Lines 84-90: the candidate output path before the directory/suffix
analysis — the current working directory for an absent, empty or blank
request, the `Path`-normalised request otherwise. -/
def outputCandidate (cwd : String) (req : Option String) : String :=
  match req with
  | none => cwd
  | some s => if s = "" then cwd else if pyStrip s = "" then cwd else pathNorm s

/-- Output-target resolution, lines 84-104, transcribed statement by
statement: blank handling (84-90), the directory-or-no-suffix branch
synthesising `output_<id>.mp4` (92-93), otherwise resolve (95), test whether
the suffix is empty once dots and whitespace are removed (97-99), and either
replace the suffix string throughout the resolved path with `.mp4` (100, a
`str.replace`, hence every occurrence) or keep the stripped path (102);
everything is finally resolved again (104). -/
def resolveOutputPath (cwd : String) (isDir : String → Bool) (tempNum : String)
    (req : Option String) : String :=
  let p1 := outputCandidate cwd req
  if isDir p1 || pySuffix p1 = "" then
    pyResolve cwd (pathJoin p1 ("output_" ++ tempNum ++ ".mp4"))
  else
    let p2 := pyResolve cwd p1
    let realSuffix := pyStrip (replaceStr "." "" (pySuffix p2))
    if realSuffix = "" then pyResolve cwd (replaceStr (pySuffix p2) ".mp4" p2)
    else pyResolve cwd (pyStrip p2)

/-- The claim's reading of the resolution rules, in their order: blank →
current working directory; directory or no suffix → synthesized
`output_<id>.mp4` inside that directory; file input whose suffix is empty
after the dot → **its suffix** (the trailing occurrence only) replaced with
`.mp4`; file input with a non-empty suffix → used as-is, trimmed. -/
def outputRulesPerSpec (cwd : String) (isDir : String → Bool) (tempNum : String)
    (req : Option String) : String :=
  let p1 := outputCandidate cwd req
  if isDir p1 || pySuffix p1 = "" then
    pyResolve cwd (pathJoin p1 ("output_" ++ tempNum ++ ".mp4"))
  else
    let p2 := pyResolve cwd p1
    let realSuffix := pyStrip (replaceStr "." "" (pySuffix p2))
    if realSuffix = "" then
      pyResolve cwd (String.mk (p2.data.take (p2.data.length - (pySuffix p2).data.length)) ++ ".mp4")
    else pyResolve cwd (pyStrip p2)

/-- The resolution rules as the code actually applies them — identical to
the claim's reading except that the empty-after-the-dot rule replaces
**every** occurrence of the suffix substring in the resolved path (the
`str.replace` of line 100), which can also rewrite identical substrings in
parent directory components. -/
def outputRulesAmended (cwd : String) (isDir : String → Bool) (tempNum : String)
    (req : Option String) : String :=
  let p1 := outputCandidate cwd req
  if isDir p1 || pySuffix p1 = "" then
    pyResolve cwd (pathJoin p1 ("output_" ++ tempNum ++ ".mp4"))
  else
    let p2 := pyResolve cwd p1
    let realSuffix := pyStrip (replaceStr "." "" (pySuffix p2))
    if realSuffix = "" then pyResolve cwd (replaceStr (pySuffix p2) ".mp4" p2)
    else pyResolve cwd (pyStrip p2)

/-- The interpolated FFmpeg command of line 55: one string, every path
wrapped in double quotes. -/
def ffmpegCommand (tool video audio output : String) : String :=
  "\"" ++ tool ++ "\" -i \"" ++ video ++ "\" -i \"" ++ audio ++
    "\" -c copy -y -hide_banner -loglevel error \"" ++ output ++ "\""

/-- The discrete argument vector the specification describes for the same
invocation (never built by the code). -/
def ffmpegArgv (tool video audio output : String) : List String :=
  [tool, "-i", video, "-i", audio, "-c", "copy", "-y", "-hide_banner",
   "-loglevel", "error", output]

/-- `merge_media_files` (src lines 47-64): resolve the output, create its
parent directory, build the interpolated command string and hand it to
`subprocess.run(…, shell=False, check=True)`.  If `run` raises (non-zero
exit or failure to start), the `except` at line 60 logs and calls a bare
`exit()`; otherwise the function returns and the caller continues. -/
def merge_media_files (env : Env) (ffmpeg video audio output0 : String) :
    List Event × Outcome :=
  let output := pyResolve env.cwd output0
  let cmd := ffmpegCommand ffmpeg video audio output
  ([Event.mkdirParent (parentDir output), Event.runProc (Sum.inl cmd)],
    if env.runOk (Sum.inl cmd) then Outcome.success else Outcome.exitZero)

/-- The staged video path (src lines 106, 113-116): the `.?` placeholder in
`<tempDir>/.video_<tempNum>.?` is replaced — every occurrence, a
`str.replace` — with the probed extension, or with the `.mp4` fallback when
extension resolution was inconclusive. -/
def videoStaged (cwd tempDir tempNum : String) (ext : Option String) : String :=
  replaceStr ".?" (ext.getD ".mp4")
    (pyResolve cwd (pathJoin tempDir (".video_" ++ tempNum ++ ".?")))

/-- The staged audio path (src lines 107, 123-126), with the `.mp3`
fallback. -/
def audioStaged (cwd tempDir tempNum : String) (ext : Option String) : String :=
  replaceStr ".?" (ext.getD ".mp3")
    (pyResolve cwd (pathJoin tempDir (".audio_" ++ tempNum ++ ".?")))

/-- The staged video path as the download dispatch of line 118 resolves it. -/
def stagedVideoDest (env : Env) (tempNum tempDir videoUrl : String) : String :=
  pyResolve env.cwd
    (videoStaged env.cwd tempDir tempNum (get_extension_from_url env.probe (unquote videoUrl)))

/-- The staged audio path as the download dispatch of line 128 resolves it. -/
def stagedAudioDest (env : Env) (tempNum tempDir audioUrl : String) : String :=
  pyResolve env.cwd
    (audioStaged env.cwd tempDir tempNum (get_extension_from_url env.probe (unquote audioUrl)))

/-- Events up to and including the video download dispatch (src 68-118):
the tool check, the video probe, the video download. -/
def preAudioTrace (env : Env) (tempNum tempDir videoUrl : String) : List Event :=
  [Event.whichCheck true, Event.probe (unquote videoUrl),
   Event.download (unquote videoUrl) (stagedVideoDest env tempNum tempDir videoUrl)]

/-- Events up to and including the audio download dispatch (src 68-128). -/
def preMergeTrace (env : Env) (tempNum tempDir videoUrl audioUrl : String) : List Event :=
  preAudioTrace env tempNum tempDir videoUrl ++
    [Event.probe (unquote audioUrl),
     Event.download (unquote audioUrl) (stagedAudioDest env tempNum tempDir audioUrl)]

/-- `download_and_merge` (src lines 67-135) as a pure function from the
environment to the ordered event list and the process outcome.  Control
flow of the source: the `shutil.which` check first (68-77, bare `exit()`
when absent); both URLs unquoted (81-82); output resolution (84-104); video
probe then video download (110-118); audio probe then audio download
(120-128); merge of the two staged paths into the resolved output (130);
`rmtree` of the workspace only after the merge returned (132-133).  A
download that raises propagates uncaught past `download_and_merge`. -/
def download_and_merge (env : Env) (tempNum tempDir videoUrl audioUrl : String)
    (outputReq : Option String) : List Event × Outcome :=
  match env.whichFfmpeg with
  | none => ([Event.whichCheck false], Outcome.exitZero)
  | some fp =>
    if env.downloadOk (unquote videoUrl) (stagedVideoDest env tempNum tempDir videoUrl) then
      if env.downloadOk (unquote audioUrl) (stagedAudioDest env tempNum tempDir audioUrl) then
        match merge_media_files env (pyResolve env.cwd fp)
            (videoStaged env.cwd tempDir tempNum
              (get_extension_from_url env.probe (unquote videoUrl)))
            (audioStaged env.cwd tempDir tempNum
              (get_extension_from_url env.probe (unquote audioUrl)))
            (resolveOutputPath env.cwd env.isDir tempNum outputReq) with
        | (mev, Outcome.success) =>
          (preMergeTrace env tempNum tempDir videoUrl audioUrl ++ mev ++
            [Event.rmtree tempDir], Outcome.success)
        | (mev, o) => (preMergeTrace env tempNum tempDir videoUrl audioUrl ++ mev, o)
      else (preMergeTrace env tempNum tempDir videoUrl audioUrl, Outcome.uncaught)
    else (preAudioTrace env tempNum tempDir videoUrl, Outcome.uncaught)

/-- The command string the merge step of a run builds (line 55, with the
arguments `download_and_merge` passes at line 130). -/
def mergeCmd (env : Env) (fp tempNum tempDir videoUrl audioUrl : String)
    (outputReq : Option String) : String :=
  ffmpegCommand (pyResolve env.cwd fp)
    (videoStaged env.cwd tempDir tempNum (get_extension_from_url env.probe (unquote videoUrl)))
    (audioStaged env.cwd tempDir tempNum (get_extension_from_url env.probe (unquote audioUrl)))
    (pyResolve env.cwd (resolveOutputPath env.cwd env.isDir tempNum outputReq))

/-- The events the merge step of a run contributes: the output-parent
directory creation and the child-process execution of the single
interpolated command string. -/
def mergeTrace (env : Env) (fp tempNum tempDir videoUrl audioUrl : String)
    (outputReq : Option String) : List Event :=
  [Event.mkdirParent (parentDir (pyResolve env.cwd
      (resolveOutputPath env.cwd env.isDir tempNum outputReq))),
   Event.runProc (Sum.inl (mergeCmd env fp tempNum tempDir videoUrl audioUrl outputReq))]

/-- `gen_temp_info` (src lines 154-157): pair a candidate identifier with
the resolved workspace directory `<systemTempDir>/.temp-<identifier>`. -/
def gen_temp_info (cwd sysTmp id : String) : String × String :=
  (id, pyResolve cwd (pathJoin sysTmp (".temp-" ++ id)))

/-- The session-creation loop (src lines 159-164): draw candidates from the
random stream `ids` and retry while a directory of the candidate name
exists; `fs` is the filesystem's directory-existence answer.  The Python
loop is unbounded; the fuel makes the recursion total, and every statement
proved below is about runs in which the loop found an unused name (`some`). -/
def createSession (fs : String → Bool) (cwd sysTmp : String) (ids : Nat → String) :
    Nat → Nat → Option (String × String)
  | 0, _ => none
  | fuel + 1, n =>
    let s := gen_temp_info cwd sysTmp (ids n)
    if fs s.2 then createSession fs cwd sysTmp ids fuel (n + 1) else some s

/-- A filesystem on which no path is a directory. -/
def dirNever : String → Bool := fun _ => false

/-- A concrete happy-path environment: the tool is found, no candidate path
is a directory, every probe raises, both downloads return, the child
process exits cleanly. -/
def envOk : Env :=
  { whichFfmpeg := some "/usr/bin/ffmpeg", cwd := "/w", isDir := dirNever,
    probe := fun _ => none, downloadOk := fun _ _ => true, runOk := fun _ => true }

/-- `envOk` with the merge tool absent from the lookup path. -/
def envNoTool : Env := { envOk with whichFfmpeg := none }

/-- `envOk` with a failing merge child process. -/
def envMergeFail : Env := { envOk with runOk := fun _ => false }

/-- `envOk` with a downloader that raises on every fetch. -/
def envDlFail : Env := { envOk with downloadOk := fun _ _ => false }

/-- One fixed run of the pipeline, used by the concrete evaluations below:
session identifier `a1b2c3d4`, workspace `/tmp/.temp-a1b2c3d4`, plain video
and audio URLs, requested output `/out/f.mkv`. -/
def sampleRun (env : Env) : List Event × Outcome :=
  download_and_merge env "a1b2c3d4" "/tmp/.temp-a1b2c3d4" "http://x/v" "http://x/a"
    (some "/out/f.mkv")

/-- The staged paths of `sampleRun` (probes raise, so both fallbacks apply). -/
def sampleVideoPath : String := "/tmp/.temp-a1b2c3d4/.video_a1b2c3d4.mp4"

/-- The staged audio path of `sampleRun`. -/
def sampleAudioPath : String := "/tmp/.temp-a1b2c3d4/.audio_a1b2c3d4.mp3"

/-- The single interpolated command string `sampleRun` hands to
`subprocess.run`. -/
def sampleCommand : String :=
  ffmpegCommand "/usr/bin/ffmpeg" sampleVideoPath sampleAudioPath "/out/f.mkv"

/-- Unfolding of the merge step: one `mkdir -p` of the output's parent and
one child process, whose argument is always the single interpolated command
string (never an argument vector); the outcome is `success` exactly when
`subprocess.run` returns. -/
theorem merge_media_files_eq (env : Env) (f v a o : String) :
    merge_media_files env f v a o =
      ([Event.mkdirParent (parentDir (pyResolve env.cwd o)),
        Event.runProc (Sum.inl (ffmpegCommand f v a (pyResolve env.cwd o)))],
       if env.runOk (Sum.inl (ffmpegCommand f v a (pyResolve env.cwd o))) then Outcome.success
       else Outcome.exitZero) := rfl

/-- Every run's event list has one of five shapes: the tool-missing bailout,
a stop at the video download, a stop at the audio download, a merge failure,
or the full success trace. -/
theorem dam_shape (env : Env) (tempNum tempDir videoUrl audioUrl : String)
    (outputReq : Option String) :
    (env.whichFfmpeg = none ∧
      download_and_merge env tempNum tempDir videoUrl audioUrl outputReq
        = ([Event.whichCheck false], Outcome.exitZero))
    ∨ (∃ fp, env.whichFfmpeg = some fp ∧
        ((download_and_merge env tempNum tempDir videoUrl audioUrl outputReq).1
            = preAudioTrace env tempNum tempDir videoUrl
        ∨ (download_and_merge env tempNum tempDir videoUrl audioUrl outputReq).1
            = preMergeTrace env tempNum tempDir videoUrl audioUrl
        ∨ (download_and_merge env tempNum tempDir videoUrl audioUrl outputReq).1
            = preMergeTrace env tempNum tempDir videoUrl audioUrl ++
                mergeTrace env fp tempNum tempDir videoUrl audioUrl outputReq
        ∨ (download_and_merge env tempNum tempDir videoUrl audioUrl outputReq).1
            = preMergeTrace env tempNum tempDir videoUrl audioUrl ++
                mergeTrace env fp tempNum tempDir videoUrl audioUrl outputReq ++
                [Event.rmtree tempDir])) := by
  rcases hw : env.whichFfmpeg with _ | fp
  · exact Or.inl ⟨rfl, by simp [download_and_merge, hw]⟩
  · refine Or.inr ⟨fp, rfl, ?_⟩
    by_cases h1 : env.downloadOk (unquote videoUrl) (stagedVideoDest env tempNum tempDir videoUrl)
    · by_cases h2 :
        env.downloadOk (unquote audioUrl) (stagedAudioDest env tempNum tempDir audioUrl)
      · by_cases hr :
          env.runOk (Sum.inl (mergeCmd env fp tempNum tempDir videoUrl audioUrl outputReq))
        · refine Or.inr (Or.inr (Or.inr ?_))
          simp only [mergeCmd] at hr
          simp [download_and_merge, hw, h1, h2, merge_media_files, mergeTrace, mergeCmd, hr]
        · refine Or.inr (Or.inr (Or.inl ?_))
          simp only [mergeCmd] at hr
          simp [download_and_merge, hw, h1, h2, merge_media_files, mergeTrace, mergeCmd, hr]
      · exact Or.inr (Or.inl (by simp [download_and_merge, hw, h1, h2]))
    · exact Or.inl (by simp [download_and_merge, hw, h1])

/-- Percent-decoding never lengthens its input. -/
theorem unquoteAux_length_le (fuel : Nat) :
    ∀ cs : List Char, (unquoteAux fuel cs).length ≤ cs.length := by
  induction fuel with
  | zero => intro cs; cases cs <;> simp [unquoteAux]
  | succ fuel ih =>
    intro cs
    match cs with
    | [] => simp [unquoteAux]
    | c :: rest =>
      by_cases hc : c = '%'
      · subst hc
        match rest with
        | [] => simp [unquoteAux]
        | [a] => simpa [unquoteAux] using ih [a]
        | a :: b :: rest2 =>
          by_cases hx : (isHexDigit a && isHexDigit b) = true
          · have h2 := ih rest2
            simp [unquoteAux, hx]
            omega
          · have h2 := ih (a :: b :: rest2)
            simp only [List.length_cons] at h2
            simp [unquoteAux, hx]
            omega
      · have h2 := ih rest
        simp [unquoteAux, hc]
        omega

/-- Percent-decoding strictly shortens any input containing a valid
percent-escape (fuelled version; the fuel dominates the length). -/
theorem unquoteAux_length_lt (fuel : Nat) :
    ∀ cs : List Char, cs.length ≤ fuel → hasEscapeChars cs = true →
      (unquoteAux fuel cs).length < cs.length := by
  induction fuel with
  | zero =>
    intro cs hlen hesc
    cases cs with
    | nil => simp [hasEscapeChars] at hesc
    | cons c rest => simp at hlen
  | succ fuel ih =>
    intro cs hlen hesc
    match cs with
    | [] => simp [hasEscapeChars] at hesc
    | c :: rest =>
      by_cases hc : c = '%'
      · subst hc
        match rest with
        | [] =>
          simp [hasEscapeChars, escapeHere] at hesc
        | [a] =>
          simp [hasEscapeChars, escapeHere] at hesc
        | a :: b :: rest2 =>
          by_cases hx : (isHexDigit a && isHexDigit b) = true
          · have h2 := unquoteAux_length_le fuel rest2
            simp [unquoteAux, hx]
            omega
          · have hesc2 : hasEscapeChars (a :: b :: rest2) = true := by
              rw [show hasEscapeChars ('%' :: a :: b :: rest2)
                  = (escapeHere '%' (a :: b :: rest2) || hasEscapeChars (a :: b :: rest2))
                from rfl] at hesc
              simpa [escapeHere, hx] using hesc
            have hlen2 : (a :: b :: rest2).length ≤ fuel := by
              simp at hlen ⊢; omega
            have h2 := ih (a :: b :: rest2) hlen2 hesc2
            simp only [List.length_cons] at h2
            simp [unquoteAux, hx]
            omega
      · have hesc2 : hasEscapeChars rest = true := by
          rw [show hasEscapeChars (c :: rest)
              = (escapeHere c rest || hasEscapeChars rest) from rfl] at hesc
          simpa [escapeHere, hc] using hesc
        have hlen2 : rest.length ≤ fuel := by simp at hlen; omega
        have h2 := ih rest hlen2 hesc2
        simp [unquoteAux, hc]
        omega

/-- A URL containing a valid percent-escape is changed by unquoting: the
decoded form is strictly shorter, hence a different string. -/
theorem unquote_ne_of_hasEscape (s : String) (h : hasEscape s = true) : unquote s ≠ s := by
  intro heq
  have hlt := unquoteAux_length_lt s.data.length s.data le_rfl h
  have hdata : unquoteChars s.data = s.data := by
    have : (unquote s).data = s.data := by rw [heq]
    simpa [unquote, unquoteChars] using this
  rw [unquoteChars] at hdata
  rw [hdata] at hlt
  exact lt_irrefl _ hlt

/-- Freshness of the session loop: a directory name it returns did not
exist on the filesystem it was checked against. -/
theorem createSession_fresh (fs : String → Bool) (cwd sysTmp : String) (ids : Nat → String) :
    ∀ fuel n id dir, createSession fs cwd sysTmp ids fuel n = some (id, dir) →
      fs dir = false := by
  intro fuel
  induction fuel with
  | zero => intro n id dir h; simp [createSession] at h
  | succ fuel ih =>
    intro n id dir h
    by_cases hfs : fs (gen_temp_info cwd sysTmp (ids n)).2 = true
    · rw [createSession, if_pos hfs] at h
      exact ih (n + 1) id dir h
    · rw [createSession, if_neg hfs] at h
      obtain ⟨rfl, rfl⟩ : ids n = id ∧ (gen_temp_info cwd sysTmp (ids n)).2 = dir := by
        have := h
        simp [gen_temp_info] at this
        exact ⟨this.1, this.2.symm ▸ rfl⟩
      simpa using hfs

/-- C6: at the moment a session's workspace directory is created no
directory of that name exists — a candidate whose directory exists is
skipped and a new identifier is drawn (the regeneration loop), so the
returned directory is always unused; consequently a second session created
after the first session's directory exists never reuses the first
directory's name. -/
theorem c6_session_dir_fresh_and_unique (fs : String → Bool) (cwd sysTmp : String)
    (ids : Nat → String) :
    (∀ fuel n id dir, createSession fs cwd sysTmp ids fuel n = some (id, dir) →
      fs dir = false)
    ∧ (∀ fuel n, fs (gen_temp_info cwd sysTmp (ids n)).2 = true →
        createSession fs cwd sysTmp ids (fuel + 1) n
          = createSession fs cwd sysTmp ids fuel (n + 1))
    ∧ (∀ fuel₁ fuel₂ n₁ n₂ id₁ dir₁ id₂ dir₂,
        createSession fs cwd sysTmp ids fuel₁ n₁ = some (id₁, dir₁) →
        createSession (fun d => fs d || (d == dir₁)) cwd sysTmp ids fuel₂ n₂
          = some (id₂, dir₂) →
        dir₂ ≠ dir₁) := by
  refine ⟨createSession_fresh fs cwd sysTmp ids, ?_, ?_⟩
  · intro fuel n hfs
    rw [createSession, if_pos hfs]
  · intro fuel₁ fuel₂ n₁ n₂ id₁ dir₁ id₂ dir₂ _ h₂
    have hfree := createSession_fresh (fun d => fs d || (d == dir₁)) cwd sysTmp ids
      fuel₂ n₂ id₂ dir₂ h₂
    intro heq
    simp [heq] at hfree

/-- Witness for C6 at a concrete filesystem: the first candidate `aaaa`
collides with an existing directory, the loop retries and returns the
unused `bbbb`; its directory does not exist. -/
theorem c6_session_dir_fresh_and_unique_w :
    createSession (fun d => d == "/tmp/.temp-aaaa") "/w" "/tmp"
        (fun n => if n == 0 then "aaaa" else "bbbb") 5 0 = some ("bbbb", "/tmp/.temp-bbbb")
    ∧ (fun d : String => d == "/tmp/.temp-aaaa") "/tmp/.temp-bbbb" = false := by
  refine ⟨by decide, ?_⟩
  exact (c6_session_dir_fresh_and_unique (fun d => d == "/tmp/.temp-aaaa") "/w" "/tmp"
    (fun n => if n == 0 then "aaaa" else "bbbb")).1 5 0 "bbbb" "/tmp/.temp-bbbb" (by decide)

/-- C8: when `shutil.which` cannot locate the merge tool the run consists of
the failed tool check alone and ends by the bare `exit()` — in particular no
network operation (no extension probe, no download dispatch) ever happens. -/
theorem c8_tool_missing_before_network (env : Env) (tempNum tempDir videoUrl audioUrl : String)
    (outputReq : Option String) (h : env.whichFfmpeg = none) :
    download_and_merge env tempNum tempDir videoUrl audioUrl outputReq
      = ([Event.whichCheck false], Outcome.exitZero)
    ∧ (download_and_merge env tempNum tempDir videoUrl audioUrl outputReq).1.all
        (fun e => !e.isProbe && !e.isDownload) = true := by
  constructor
  · simp [download_and_merge, h]
  · simp [download_and_merge, h, Event.isProbe, Event.isDownload]

/-- Witness for C8: the concrete tool-less environment. -/
theorem c8_tool_missing_before_network_w :
    sampleRun envNoTool = ([Event.whichCheck false], Outcome.exitZero)
    ∧ (sampleRun envNoTool).1.all (fun e => !e.isProbe && !e.isDownload) = true :=
  c8_tool_missing_before_network envNoTool "a1b2c3d4" "/tmp/.temp-a1b2c3d4"
    "http://x/v" "http://x/a" (some "/out/f.mkv") rfl

/-- C9 as claimed is false: output resolution is not a function of the
requested path and the identifier alone.  With the same request `/x.avi`
and the same identifier, a filesystem on which `/x.avi` is a directory
resolves to `/x.avi/output_a1b2c3d4.mp4` while one on which it is not
resolves to `/x.avi`; and with the same request `rel/f.mkv` two different
working directories resolve to two different paths. -/
theorem c9_cex_resolution_reads_state :
    resolveOutputPath "/h" (fun p => p == "/x.avi") "a1b2c3d4" (some "/x.avi")
        ≠ resolveOutputPath "/h" dirNever "a1b2c3d4" (some "/x.avi")
    ∧ resolveOutputPath "/a" dirNever "a1b2c3d4" (some "rel/f.mkv")
        ≠ resolveOutputPath "/b" dirNever "a1b2c3d4" (some "rel/f.mkv") :=
  ⟨by decide, by decide⟩

/-- C9 amended: output resolution is a deterministic function of the
requested path, the session identifier, the working directory, and the
single filesystem fact it reads — whether the candidate path is a
directory.  Two resolutions whose filesystems agree on that one path agree
on the result, whatever else differs. -/
theorem c9_resolution_frame (cwd tempNum : String) (req : Option String)
    (d₁ d₂ : String → Bool)
    (h : d₁ (outputCandidate cwd req) = d₂ (outputCandidate cwd req)) :
    resolveOutputPath cwd d₁ tempNum req = resolveOutputPath cwd d₂ tempNum req := by
  simp only [resolveOutputPath, h]

/-- Witness for C9: two filesystems that disagree away from the candidate
path still resolve `/q/f.mkv` identically. -/
theorem c9_resolution_frame_w :
    (fun p : String => p == "/zzz") (outputCandidate "/w" (some "/q/f.mkv"))
        = dirNever (outputCandidate "/w" (some "/q/f.mkv"))
    ∧ resolveOutputPath "/w" (fun p => p == "/zzz") "a1b2c3d4" (some "/q/f.mkv")
        = resolveOutputPath "/w" dirNever "a1b2c3d4" (some "/q/f.mkv") :=
  ⟨by decide, c9_resolution_frame "/w" "a1b2c3d4" (some "/q/f.mkv") _ _ (by decide)⟩

/-- C5 as claimed is false on the empty-suffix-after-the-dot rule: for the
request `/a. /c. ` (suffix `. `, empty once the dot and whitespace are
stripped), the code's `str.replace` rewrites **every** occurrence of `. `
in the resolved path and yields `/a.mp4/c.mp4`, while the claim's "its
suffix replaced with `.mp4`" yields `/a. /c.mp4`. -/
theorem c5_cex_replace_rewrites_directories :
    resolveOutputPath "/w" dirNever "a1b2c3d4" (some "/a. /c. ") = "/a.mp4/c.mp4"
    ∧ outputRulesPerSpec "/w" dirNever "a1b2c3d4" (some "/a. /c. ") = "/a. /c.mp4"
    ∧ resolveOutputPath "/w" dirNever "a1b2c3d4" (some "/a. /c. ")
        ≠ outputRulesPerSpec "/w" dirNever "a1b2c3d4" (some "/a. /c. ") :=
  ⟨rfl, rfl, by decide⟩

/-- C5 amended: resolution follows the ordered rules exactly as claimed,
except that the empty-suffix-after-the-dot rule replaces every occurrence
of the suffix substring in the resolved path (`outputRulesAmended`), not
only the trailing suffix.  In addition, a blank request on a filesystem
where the working directory is a directory synthesizes
`output_<id>.mp4` inside the working directory. -/
theorem c5_resolution_rules (cwd : String) (isDir : String → Bool) (tempNum : String)
    (req : Option String) :
    resolveOutputPath cwd isDir tempNum req = outputRulesAmended cwd isDir tempNum req
    ∧ (isDir cwd = true → (req = none ∨ req = some "" ∨
        (∃ s, req = some s ∧ pyStrip s = "")) →
        resolveOutputPath cwd isDir tempNum req
          = pyResolve cwd (pathJoin cwd ("output_" ++ tempNum ++ ".mp4"))) := by
  constructor
  · rfl
  · intro hdir hblank
    have hcand : outputCandidate cwd req = cwd := by
      rcases hblank with rfl | rfl | ⟨s, rfl, hs⟩
      · rfl
      · rfl
      · by_cases he : s = "" <;> simp [outputCandidate, he, hs]
    simp [resolveOutputPath, hcand, hdir]

/-- Witness for C5: a blank (whitespace-only) request with the working
directory `/w` a directory resolves to `/w/output_a1b2c3d4.mp4`. -/
theorem c5_resolution_rules_w :
    resolveOutputPath "/w" (fun p => p == "/w") "a1b2c3d4" (some "   ")
      = "/w/output_a1b2c3d4.mp4" := by
  have h := (c5_resolution_rules "/w" (fun p => p == "/w") "a1b2c3d4" (some "   ")).2
    (by decide) (Or.inr (Or.inr ⟨"   ", rfl, by decide⟩))
  rw [h]; rfl

/-- C2 fails on the code, and the code contradicts the specification's own
stated intent (its §9 flags the interpolated string as the defect): the
merge invocation hands `subprocess.run` the single interpolated, quoted
command string — under `shell=False` — and never a discrete argument
vector.  Evaluated on a concrete run: the executed argument is the `inl`
(string) form, spelled out in full, and no event of the run carries a
vector argument. -/
theorem c2_merge_invoked_as_single_string :
    Event.runProc (Sum.inl sampleCommand) ∈ (sampleRun envOk).1
    ∧ (sampleRun envOk).1.all (fun e => !e.isVectorRun) = true
    ∧ sampleCommand
        = "\"/usr/bin/ffmpeg\" -i \"/tmp/.temp-a1b2c3d4/.video_a1b2c3d4.mp4\" -i \"/tmp/.temp-a1b2c3d4/.audio_a1b2c3d4.mp3\" -c copy -y -hide_banner -loglevel error \"/out/f.mkv\"" :=
  ⟨by decide, rfl, rfl⟩

/-- C4 fails on the code, and the code contradicts the specification's own
stated intent (its §4.1 flags success-only teardown as the gap to fix):
the staging directory is removed only on the success path.  On a failing
merge the run ends by the bare `exit()` with no `rmtree` event, and on a
failing download the exception propagates with no `rmtree` event; only the
successful run removes `/tmp/.temp-a1b2c3d4`. -/
theorem c4_teardown_only_on_success :
    ((sampleRun envOk).2 = Outcome.success
      ∧ Event.rmtree "/tmp/.temp-a1b2c3d4" ∈ (sampleRun envOk).1)
    ∧ ((sampleRun envMergeFail).2 = Outcome.exitZero
      ∧ (sampleRun envMergeFail).1.any (fun e => e.isRunProc) = true
      ∧ (sampleRun envMergeFail).1.all (fun e => !e.isRmtree) = true)
    ∧ ((sampleRun envDlFail).2 = Outcome.uncaught
      ∧ (sampleRun envDlFail).1.all (fun e => !e.isRmtree) = true) :=
  ⟨⟨rfl, by decide⟩, ⟨rfl, rfl, rfl⟩, rfl, rfl⟩

/-- C3 as claimed is false in its exit-status half: both fatal conditions
terminate through the bare `sys.exit()` of lines 62 and 77, whose process
exit status is 0, not a non-zero value — here evaluated for the
tool-missing run and for the failed-merge run (which did reach the child
process). -/
theorem c3_cex_fatal_exit_status_is_zero :
    (sampleRun envNoTool).2 = Outcome.exitZero
    ∧ (sampleRun envNoTool).2.exitCode = 0
    ∧ (sampleRun envMergeFail).2 = Outcome.exitZero
    ∧ (sampleRun envMergeFail).2.exitCode = 0
    ∧ (sampleRun envMergeFail).1.any (fun e => e.isRunProc) = true :=
  ⟨rfl, rfl, rfl, rfl, rfl⟩

/-- C3 amended: each fatal condition terminates the process immediately at
the point of failure — the tool-missing run consists of the failed check
alone, and a failed merge ends the run at the child-process event with
nothing after it — but through a bare `exit()`, so with exit status 0. -/
theorem c3_fatal_exit_immediate_status_zero (env : Env)
    (tempNum tempDir videoUrl audioUrl : String) (outputReq : Option String) :
    (env.whichFfmpeg = none →
      download_and_merge env tempNum tempDir videoUrl audioUrl outputReq
        = ([Event.whichCheck false], Outcome.exitZero)
      ∧ Outcome.exitZero.exitCode = 0)
    ∧ (∀ fp, env.whichFfmpeg = some fp →
        env.downloadOk (unquote videoUrl) (stagedVideoDest env tempNum tempDir videoUrl) = true →
        env.downloadOk (unquote audioUrl) (stagedAudioDest env tempNum tempDir audioUrl) = true →
        env.runOk (Sum.inl (mergeCmd env fp tempNum tempDir videoUrl audioUrl outputReq)) = false →
        download_and_merge env tempNum tempDir videoUrl audioUrl outputReq
          = (preMergeTrace env tempNum tempDir videoUrl audioUrl ++
              mergeTrace env fp tempNum tempDir videoUrl audioUrl outputReq,
             Outcome.exitZero)
        ∧ Outcome.exitZero.exitCode = 0) := by
  constructor
  · intro h
    exact ⟨by simp [download_and_merge, h], rfl⟩
  · intro fp hw h1 h2 hr
    refine ⟨?_, rfl⟩
    simp only [mergeCmd] at hr
    simp [download_and_merge, hw, h1, h2, merge_media_files, mergeTrace, mergeCmd, hr]

/-- Witness for C3 (amended) at the failed-merge environment. -/
theorem c3_fatal_exit_immediate_status_zero_w :
    sampleRun envMergeFail
      = (preMergeTrace envMergeFail "a1b2c3d4" "/tmp/.temp-a1b2c3d4" "http://x/v" "http://x/a" ++
          mergeTrace envMergeFail "/usr/bin/ffmpeg" "a1b2c3d4" "/tmp/.temp-a1b2c3d4"
            "http://x/v" "http://x/a" (some "/out/f.mkv"),
         Outcome.exitZero) :=
  ((c3_fatal_exit_immediate_status_zero envMergeFail "a1b2c3d4" "/tmp/.temp-a1b2c3d4"
    "http://x/v" "http://x/a" (some "/out/f.mkv")).2 "/usr/bin/ffmpeg" rfl rfl rfl rfl).1

/-- C1 as claimed is false: merging does begin in runs that contain no
staged-file existence check at all.  The concrete successful run executes
the merge child process, yet none of its events is an existence check —
the code moves straight from the blocking download calls to the merge. -/
theorem c1_cex_merge_without_existence_check :
    (sampleRun envOk).1.any (fun e => e.isRunProc) = true
    ∧ (sampleRun envOk).1.all (fun e => !e.isExistsCheck) = true :=
  ⟨rfl, rfl⟩

/-- C1 amended: the merge child process is executed only after both
download dispatches — every run whose trace contains the merge execution
has both the video download and the audio download strictly before it (the
blocking downloader returned for both); the code performs no separate
existence check. -/
theorem c1_merge_only_after_downloads (env : Env) (tempNum tempDir videoUrl audioUrl : String)
    (outputReq : Option String) (arg : Sum String (List String))
    (h : Event.runProc arg
      ∈ (download_and_merge env tempNum tempDir videoUrl audioUrl outputReq).1) :
    ∃ pre post,
      (download_and_merge env tempNum tempDir videoUrl audioUrl outputReq).1
        = pre ++ Event.runProc arg :: post
      ∧ Event.download (unquote videoUrl) (stagedVideoDest env tempNum tempDir videoUrl) ∈ pre
      ∧ Event.download (unquote audioUrl) (stagedAudioDest env tempNum tempDir audioUrl) ∈ pre := by
  rcases dam_shape env tempNum tempDir videoUrl audioUrl outputReq with
    ⟨hw, heq⟩ | ⟨fp, hw, h1 | h1 | h1 | h1⟩
  · rw [heq] at h; simp at h
  · rw [h1] at h; simp [preAudioTrace] at h
  · rw [h1] at h; simp [preMergeTrace, preAudioTrace] at h
  · have harg : arg = Sum.inl (mergeCmd env fp tempNum tempDir videoUrl audioUrl outputReq) := by
      rw [h1] at h
      simpa [preMergeTrace, preAudioTrace, mergeTrace] using h
    subst harg
    refine ⟨preMergeTrace env tempNum tempDir videoUrl audioUrl ++
      [Event.mkdirParent (parentDir (pyResolve env.cwd
        (resolveOutputPath env.cwd env.isDir tempNum outputReq)))], [], ?_, ?_, ?_⟩
    · rw [h1]; simp [mergeTrace]
    · simp [preMergeTrace, preAudioTrace]
    · simp [preMergeTrace, preAudioTrace]
  · have harg : arg = Sum.inl (mergeCmd env fp tempNum tempDir videoUrl audioUrl outputReq) := by
      rw [h1] at h
      simpa [preMergeTrace, preAudioTrace, mergeTrace] using h
    subst harg
    refine ⟨preMergeTrace env tempNum tempDir videoUrl audioUrl ++
      [Event.mkdirParent (parentDir (pyResolve env.cwd
        (resolveOutputPath env.cwd env.isDir tempNum outputReq)))],
      [Event.rmtree tempDir], ?_, ?_, ?_⟩
    · rw [h1]; simp [mergeTrace]
    · simp [preMergeTrace, preAudioTrace]
    · simp [preMergeTrace, preAudioTrace]

/-- Witness for C1 (amended): the concrete successful run, whose merge
execution is preceded by both download dispatches. -/
theorem c1_merge_only_after_downloads_w :
    ∃ pre post,
      (sampleRun envOk).1 = pre ++ Event.runProc (Sum.inl sampleCommand) :: post
      ∧ Event.download (unquote "http://x/v")
          (stagedVideoDest envOk "a1b2c3d4" "/tmp/.temp-a1b2c3d4" "http://x/v") ∈ pre
      ∧ Event.download (unquote "http://x/a")
          (stagedAudioDest envOk "a1b2c3d4" "/tmp/.temp-a1b2c3d4" "http://x/a") ∈ pre :=
  c1_merge_only_after_downloads envOk "a1b2c3d4" "/tmp/.temp-a1b2c3d4" "http://x/v"
    "http://x/a" (some "/out/f.mkv") (Sum.inl sampleCommand) (by decide)

/-- C7: extension resolution maps a `video/mp4` content type to `.mp4`;
when the probe raises, the header is absent, or the MIME type has no known
mapping it returns `none` (unresolved) instead of failing; the callers then
apply the role-specific fallbacks — a `none` extension stages exactly as
`.mp4` for the video and `.mp3` for the audio — and the pipeline still
reaches the video download dispatch whenever the tool was found, whatever
the probe did. -/
theorem c7_extension_resolution_and_fallback (probe : String → Option (Option String))
    (u cwd tempDir tempNum : String) (env : Env) (fp tempNum2 tempDir2 : String)
    (videoUrl audioUrl : String) (outputReq : Option String) :
    (probe u = some (some "video/mp4") → get_extension_from_url probe u = some ".mp4")
    ∧ (probe u = none → get_extension_from_url probe u = none)
    ∧ (probe u = some none → get_extension_from_url probe u = none)
    ∧ (∀ ct, probe u = some (some ct) → guessExtension ct = none →
        get_extension_from_url probe u = none)
    ∧ (get_extension_from_url probe u = none →
        videoStaged cwd tempDir tempNum (get_extension_from_url probe u)
          = videoStaged cwd tempDir tempNum (some ".mp4")
        ∧ audioStaged cwd tempDir tempNum (get_extension_from_url probe u)
          = audioStaged cwd tempDir tempNum (some ".mp3"))
    ∧ (env.whichFfmpeg = some fp →
        Event.download (unquote videoUrl) (stagedVideoDest env tempNum2 tempDir2 videoUrl)
          ∈ (download_and_merge env tempNum2 tempDir2 videoUrl audioUrl outputReq).1) := by
  refine ⟨?_, ?_, ?_, ?_, ?_, ?_⟩
  · intro h; simp [get_extension_from_url, h]; rfl
  · intro h; simp [get_extension_from_url, h]
  · intro h; simp [get_extension_from_url, h]
  · intro ct h hg; simp [get_extension_from_url, h, hg]
  · intro h; rw [h]; exact ⟨rfl, rfl⟩
  · intro hw
    rcases dam_shape env tempNum2 tempDir2 videoUrl audioUrl outputReq with
      ⟨hw2, _⟩ | ⟨fp2, hw2, h1 | h1 | h1 | h1⟩
    · rw [hw] at hw2; cases hw2
    all_goals rw [h1]; simp [preAudioTrace, preMergeTrace]

/-- Witness for C7 at a concrete probe: `video/mp4` maps to `.mp4`, an
unprobed URL is unresolved, an unresolved video extension stages as `.mp4`,
and the concrete run (whose probes all raise) reaches its video download. -/
theorem c7_extension_resolution_and_fallback_w :
    get_extension_from_url
        (fun v => if v = "http://p/v" then some (some "video/mp4") else none) "http://p/v"
      = some ".mp4"
    ∧ get_extension_from_url
        (fun v => if v = "http://p/v" then some (some "video/mp4") else none) "http://q/z"
      = none
    ∧ videoStaged "/w" "/tmp/.temp-a1b2c3d4" "a1b2c3d4"
        (get_extension_from_url (fun _ => none) "http://q/z")
      = videoStaged "/w" "/tmp/.temp-a1b2c3d4" "a1b2c3d4" (some ".mp4")
    ∧ Event.download (unquote "http://x/v")
        (stagedVideoDest envOk "a1b2c3d4" "/tmp/.temp-a1b2c3d4" "http://x/v")
      ∈ (sampleRun envOk).1 := by
  refine ⟨?_, ?_, ?_, ?_⟩
  · exact (c7_extension_resolution_and_fallback
      (fun v => if v = "http://p/v" then some (some "video/mp4") else none)
      "http://p/v" "/w" "/tmp/.temp-a1b2c3d4" "a1b2c3d4" envOk "/usr/bin/ffmpeg"
      "a1b2c3d4" "/tmp/.temp-a1b2c3d4" "http://x/v" "http://x/a"
      (some "/out/f.mkv")).1 (by decide)
  · exact (c7_extension_resolution_and_fallback
      (fun v => if v = "http://p/v" then some (some "video/mp4") else none)
      "http://q/z" "/w" "/tmp/.temp-a1b2c3d4" "a1b2c3d4" envOk "/usr/bin/ffmpeg"
      "a1b2c3d4" "/tmp/.temp-a1b2c3d4" "http://x/v" "http://x/a"
      (some "/out/f.mkv")).2.1 (by decide)
  · exact ((c7_extension_resolution_and_fallback (fun _ => none)
      "http://q/z" "/w" "/tmp/.temp-a1b2c3d4" "a1b2c3d4" envOk "/usr/bin/ffmpeg"
      "a1b2c3d4" "/tmp/.temp-a1b2c3d4" "http://x/v" "http://x/a"
      (some "/out/f.mkv")).2.2.2.2.1 (by decide)).1
  · exact (c7_extension_resolution_and_fallback (fun _ => none)
      "http://q/z" "/w" "/tmp/.temp-a1b2c3d4" "a1b2c3d4" envOk "/usr/bin/ffmpeg"
      "a1b2c3d4" "/tmp/.temp-a1b2c3d4" "http://x/v" "http://x/a"
      (some "/out/f.mkv")).2.2.2.2.2 rfl

/-- C10: every probe event and every download event of every run carries
one of the two unquoted URLs — the pipeline percent-decodes both inputs at
lines 81-82 before probing or dispatching — and unquoting changes any URL
that contains a valid percent-escape, so an escaped form is never the one
fetched. -/
theorem c10_urls_unquoted_before_use (env : Env)
    (tempNum tempDir videoUrl audioUrl : String) (outputReq : Option String) :
    (∀ u, Event.probe u
        ∈ (download_and_merge env tempNum tempDir videoUrl audioUrl outputReq).1 →
      u = unquote videoUrl ∨ u = unquote audioUrl)
    ∧ (∀ u d, Event.download u d
        ∈ (download_and_merge env tempNum tempDir videoUrl audioUrl outputReq).1 →
      (u = unquote videoUrl ∧ d = stagedVideoDest env tempNum tempDir videoUrl)
      ∨ (u = unquote audioUrl ∧ d = stagedAudioDest env tempNum tempDir audioUrl))
    ∧ (∀ s : String, hasEscape s = true → unquote s ≠ s) := by
  refine ⟨?_, ?_, fun s hs => unquote_ne_of_hasEscape s hs⟩
  · intro u hu
    rcases dam_shape env tempNum tempDir videoUrl audioUrl outputReq with
      ⟨hw, heq⟩ | ⟨fp, hw, h1 | h1 | h1 | h1⟩
    · rw [heq] at hu; simp at hu
    · rw [h1] at hu
      simp [preAudioTrace, preMergeTrace, mergeTrace] at hu
      tauto
    · rw [h1] at hu
      simp [preAudioTrace, preMergeTrace, mergeTrace] at hu
      tauto
    · rw [h1] at hu
      simp [preAudioTrace, preMergeTrace, mergeTrace] at hu
      tauto
    · rw [h1] at hu
      simp [preAudioTrace, preMergeTrace, mergeTrace] at hu
      tauto
  · intro u d hu
    rcases dam_shape env tempNum tempDir videoUrl audioUrl outputReq with
      ⟨hw, heq⟩ | ⟨fp, hw, h1 | h1 | h1 | h1⟩
    · rw [heq] at hu; simp at hu
    · rw [h1] at hu
      simp [preAudioTrace, preMergeTrace, mergeTrace] at hu
      exact Or.inl hu
    · rw [h1] at hu
      simp [preAudioTrace, preMergeTrace, mergeTrace] at hu
      exact hu
    · rw [h1] at hu
      simp [preAudioTrace, preMergeTrace, mergeTrace] at hu
      exact hu
    · rw [h1] at hu
      simp [preAudioTrace, preMergeTrace, mergeTrace] at hu
      exact hu

/-- Witness for C10: in the concrete run the probed URL is the unquoted
video URL, and a URL carrying the escape `%20` is changed by unquoting. -/
theorem c10_urls_unquoted_before_use_w :
    ("http://x/v" = unquote "http://x/v" ∨ "http://x/v" = unquote "http://x/a")
    ∧ unquote "http://x/a%20b" ≠ "http://x/a%20b" := by
  constructor
  · exact (c10_urls_unquoted_before_use envOk "a1b2c3d4" "/tmp/.temp-a1b2c3d4"
      "http://x/v" "http://x/a" (some "/out/f.mkv")).1 "http://x/v" (by decide)
  · exact (c10_urls_unquoted_before_use envOk "a1b2c3d4" "/tmp/.temp-a1b2c3d4"
      "http://x/v" "http://x/a" (some "/out/f.mkv")).2.2 "http://x/a%20b" (by decide)

end UnifySync
